import Mathlib

/-!
Shallow embedding of the credit-metered background-removal service
(`src/api/app.py`).  External effects — the Supabase HTTP round trips, JWT
decoding, PIL image parsing, and the WithoutBG transform engine — are
modelled as explicit behaviour parameters collected in an `Env`; the
user's stored credit balance is threaded through every operation as
explicit state.  Python strings are modelled as `List Char` so that
`str.split` can be reasoned about directly; machine integers do not
overflow in this code, so balances are plain `Int`.
-/

/-- Python strings, as lists of characters. -/
abbrev PyStr := List Char

/-- Decoded image bytes. -/
abbrev ImgBytes := List Nat

/-- FastAPI `HTTPException`: a status code plus a detail message. -/
structure HTTPException where
  status_code : Nat
  detail : String
deriving DecidableEq

/-- A raised Python exception: either a FastAPI `HTTPException` or a
generic exception (transport errors, parse errors, ...). -/
inductive PyError where
  | http (e : HTTPException)
  | exc (msg : String)
deriving DecidableEq

/-- Behaviour of one Supabase GET round trip: a response with a status
code together with whether the queried row exists, or a transport-level
exception raised by the HTTP client. -/
inductive ReadBehavior where
  | resp (status : Nat) (found : Bool)
  | exc
deriving DecidableEq

/-- Behaviour of one Supabase PATCH round trip: a response with a status
code together with whether the store applied the write, or a
transport-level exception raised by the HTTP client. -/
inductive WriteBehavior where
  | resp (status : Nat) (applied : Bool)
  | exc
deriving DecidableEq

/-- The decoded JWT payload: the optional `email` claim. -/
structure JwtPayload where
  email : Option PyStr
deriving DecidableEq

/-- Outcome of `jwt.decode`: a payload, or one of the two caught
exception classes (`ExpiredSignatureError`, `InvalidTokenError`). -/
inductive JwtResult where
  | ok (payload : JwtPayload)
  | expiredSignature
  | invalidToken
deriving DecidableEq

/-- A PIL image: its colour mode plus abstract pixel content. -/
structure PILImage where
  mode : String
  content : ImgBytes
deriving DecidableEq

/-- The JSON value returned to the client: the success body
(`data_received`, `remaining_credits`) or a raised `HTTPException`. -/
inductive HandlerResult where
  | ok (data_received : PyStr) (remaining_credits : Int)
  | err (e : HTTPException)
deriving DecidableEq

/-- What `refund_credit` logs: the success message or the swallowed
failure message.  The function itself never raises. -/
inductive RefundOutcome where
  | logRefunded
  | logFailed
deriving DecidableEq

/-- Python `s.split(sep)` for a single-character separator: accumulator
holds the current field reversed. -/
def pySplitAux (sep : Char) : List Char → List Char → List (List Char)
  | [], acc => [acc.reverse]
  | c :: rest, acc =>
    if c = sep then acc.reverse :: pySplitAux sep rest []
    else pySplitAux sep rest (c :: acc)

/-- Python `s.split(sep)` for a single-character separator. -/
def pySplit (sep : Char) (s : List Char) : List (List Char) :=
  pySplitAux sep s []

/-- The header literal `"Bearer "` checked by `startswith`. -/
def bearerMarker : PyStr := "Bearer ".toList

/-- The data-URL marker prepended to the WebP output,
`"data:image/webp;base64,"`. -/
def dataUrlHeader : PyStr := "data:image/webp;base64,".toList

/-- The environment of one request: the behaviour of every external
collaborator the handler consults. -/
structure Env where
  jwtDecode : PyStr → JwtResult
  chargeRead : ReadBehavior
  chargeWrite : WriteBehavior
  b64decode : PyStr → Except PyError ImgBytes
  imageOpen : ImgBytes → Except PyError PILImage
  convertRGB : PILImage → PILImage
  modelLoaded : Bool
  transform : PILImage → Except PyError PILImage
  encodeWebp : PILImage → Except PyError ImgBytes
  b64encode : ImgBytes → PyStr
  refundRead : ReadBehavior
  refundWrite : WriteBehavior

/-- `get_user_credits` (app.py 68-105): GET the user's credits row.
`balance` is the stored value returned when the call reaches the store.
A non-200 status or a missing row raises status 300; a transport failure
raises a generic exception. -/
def get_user_credits (rb : ReadBehavior) (balance : Int) : Except PyError Int :=
  match rb with
  | .exc => .error (.exc "connection error")
  | .resp status found =>
    if status ≠ 200 then .error (.http ⟨300, "Failed to connect to Supabase"⟩)
    else if found then .ok balance
    else .error (.http ⟨300, "User not found in database"⟩)

/-- `deduct_credit` (app.py 110-151): read the balance, reject `≤ 0`
with status 400 before any write, else PATCH `balance - 1`.  Returns the
Python result, the ledger after the call, and whether the PATCH was
issued. -/
def deduct_credit (rb : ReadBehavior) (wb : WriteBehavior) (ledger : Int) :
    Except PyError Int × Int × Bool :=
  match get_user_credits rb ledger with
  | .error e => (.error e, ledger, false)
  | .ok current =>
    if current ≤ 0 then
      (.error (.http ⟨400, "No credits remaining"⟩), ledger, false)
    else
      let newCredits := current - 1
      match wb with
      | .exc => (.error (.exc "connection error"), ledger, true)
      | .resp status applied =>
        let ledger2 := if applied then newCredits else ledger
        if status ≠ 200 ∧ status ≠ 204 then
          (.error (.http ⟨300, "Failed to update credits"⟩), ledger2, true)
        else (.ok newCredits, ledger2, true)

/-- The body of `refund_credit`'s `try` block (app.py 161-181): re-read
the balance, then PATCH `balance + 1`.  The PATCH's response status is
never examined.  Returns the raised error if any, the ledger after the
call, and whether the PATCH was issued. -/
def refund_credit_attempt (rb : ReadBehavior) (wb : WriteBehavior) (ledger : Int) :
    Except PyError Unit × Int × Bool :=
  match get_user_credits rb ledger with
  | .error e => (.error e, ledger, false)
  | .ok current =>
    match wb with
    | .exc => (.error (.exc "connection error"), ledger, true)
    | .resp _ applied =>
      (.ok (), if applied then current + 1 else ledger, true)

/-- `refund_credit` (app.py 156-183): run the attempt; any exception is
caught and logged, so the function always returns normally. -/
def refund_credit (rb : ReadBehavior) (wb : WriteBehavior) (ledger : Int) :
    RefundOutcome × Int × Bool :=
  match refund_credit_attempt rb wb ledger with
  | (.ok _, l, w) => (.logRefunded, l, w)
  | (.error _, l, w) => (.logFailed, l, w)

/-- Steps 1-2 of `remove_background` (app.py 212-256): header presence
and `"Bearer "` check, then `jwt.decode` of `split(" ")[1]` and the
email-claim check.  Returns the user email or the raised
`HTTPException`, plus how many times `jwt.decode` was invoked. -/
def auth_stage (env : Env) (authorization : Option PyStr) :
    Except HTTPException PyStr × Nat :=
  match authorization with
  | none => (.error ⟨100, "Missing authorization"⟩, 0)
  | some auth =>
    if auth = [] then (.error ⟨100, "Missing authorization"⟩, 0)
    else if bearerMarker.isPrefixOf auth then
      let token := (pySplit ' ' auth).getD 1 []
      match env.jwtDecode token with
      | .expiredSignature => (.error ⟨100, "Token expired"⟩, 1)
      | .invalidToken => (.error ⟨100, "Invalid token"⟩, 1)
      | .ok payload =>
        match payload.email with
        | none => (.error ⟨100, "Invalid token payload"⟩, 1)
        | some email =>
          if email = [] then (.error ⟨100, "Invalid token payload"⟩, 1)
          else (.ok email, 1)
    else (.error ⟨100, "Invalid authorization format"⟩, 0)

/-- The payload actually passed to `base64.b64decode` (app.py 279-284):
if the body contains a comma, `split(",")[1]`, else the body itself. -/
def extractPayload (data_sent : PyStr) : PyStr :=
  if ',' ∈ data_sent then (pySplit ',' data_sent).getD 1 []
  else data_sent

/-- Step 4 of `remove_background` (app.py 277-295): base64-decode the
payload, open it as an image, and normalize to RGB.  Returns the decoded
bytes together with the post-normalization image. -/
def decode_image_step (env : Env) (data_sent : PyStr) :
    Except PyError (ImgBytes × PILImage) :=
  match env.b64decode (extractPayload data_sent) with
  | .error e => .error e
  | .ok img_data =>
    match env.imageOpen img_data with
    | .error e => .error e
    | .ok img =>
      .ok (img_data, if img.mode ≠ "RGB" then env.convertRGB img else img)

/-- Steps 5-7 of `remove_background` (app.py 306-356).  When the engine
handle is absent the code refunds, raises `HTTPException(500, "Model not
loaded")` inside its own `try`, and the blanket `except Exception`
catches that `HTTPException`, refunds a second time, and raises
`HTTPException(500, "Processing failed")`.  Returns the result, the
ledger after the stage, the number of refund attempts, and the number of
refund PATCHes issued. -/
def process_stage (env : Env) (input_image : PILImage) (remaining : Int)
    (ledger : Int) : HandlerResult × Int × Nat × Nat :=
  if env.modelLoaded then
    match env.transform input_image with
    | .error _ =>
      let r := refund_credit env.refundRead env.refundWrite ledger
      (.err ⟨500, "Processing failed"⟩, r.2.1, 1, if r.2.2 then 1 else 0)
    | .ok output_image =>
      match env.encodeWebp output_image with
      | .error _ =>
        let r := refund_credit env.refundRead env.refundWrite ledger
        (.err ⟨500, "Processing failed"⟩, r.2.1, 1, if r.2.2 then 1 else 0)
      | .ok webpBytes =>
        (.ok (dataUrlHeader ++ env.b64encode webpBytes) remaining, ledger, 0, 0)
  else
    let r1 := refund_credit env.refundRead env.refundWrite ledger
    let r2 := refund_credit env.refundRead env.refundWrite r1.2.1
    (.err ⟨500, "Processing failed"⟩, r2.2.1, 2,
      (if r1.2.2 then 1 else 0) + (if r2.2.2 then 1 else 0))

/-- Everything observable about one request: the response, the final
ledger balance, and counters for the external effects the claims speak
about. -/
structure RequestOutcome where
  result : HandlerResult
  ledger : Int
  jwtCalls : Nat
  chargeOk : Bool
  chargeWrites : Nat
  refundCalls : Nat
  refundWrites : Nat
deriving DecidableEq

/-- `remove_background` (app.py 197-356), the POST handler: auth, charge
(an `HTTPException` from `deduct_credit` is re-raised unchanged, any
other exception becomes status 300 "Credit system error"), decode (on
failure: one refund, then status 500 "Invalid image data"), then the
processing stage. -/
def remove_background (env : Env) (authorization : Option PyStr)
    (data_sent : PyStr) (ledger : Int) : RequestOutcome :=
  match auth_stage env authorization with
  | (.error e, j) => ⟨.err e, ledger, j, false, 0, 0, 0⟩
  | (.ok _userEmail, j) =>
    match deduct_credit env.chargeRead env.chargeWrite ledger with
    | (.error (.http e), l1, w) =>
      ⟨.err e, l1, j, false, if w then 1 else 0, 0, 0⟩
    | (.error (.exc _), l1, w) =>
      ⟨.err ⟨300, "Credit system error"⟩, l1, j, false, if w then 1 else 0, 0, 0⟩
    | (.ok remaining, l1, w) =>
      match decode_image_step env data_sent with
      | .error _ =>
        let r := refund_credit env.refundRead env.refundWrite l1
        ⟨.err ⟨500, "Invalid image data"⟩, r.2.1, j, true,
          if w then 1 else 0, 1, if r.2.2 then 1 else 0⟩
      | .ok di =>
        let p := process_stage env di.2 remaining l1
        ⟨p.1, p.2.1, j, true, if w then 1 else 0, p.2.2.1, p.2.2.2⟩

/-- Replace only the refund behaviours of an environment. -/
def setRefund (env : Env) (rb : ReadBehavior) (wb : WriteBehavior) : Env :=
  { env with refundRead := rb, refundWrite := wb }

/-- The detail strings of all authentication failures (status 100). -/
def authDetails : List String :=
  ["Missing authorization", "Invalid authorization format", "Token expired",
   "Invalid token", "Invalid token payload"]

/-- The detail strings of all ledger failures (status 300). -/
def ledgerDetails : List String :=
  ["Failed to connect to Supabase", "User not found in database",
   "Failed to update credits", "Credit system error"]

/-- The detail strings of all post-charge processing failures
(status 500). -/
def processingDetails : List String :=
  ["Invalid image data", "Processing failed"]

/-- A standard HTTP error status code (client or server error). -/
def isStandardHttpError (c : Nat) : Prop := 400 ≤ c ∧ c ≤ 599

/-- A concrete RGB image used by the evaluation environments. -/
def rgbImg : PILImage := ⟨"RGB", [1, 2, 3]⟩

/-- A fully healthy environment: auth succeeds, every Supabase round
trip is a 200/204 that is applied, and every image step succeeds. -/
def okEnv : Env where
  jwtDecode := fun _ => .ok ⟨some ['u']⟩
  chargeRead := .resp 200 true
  chargeWrite := .resp 204 true
  b64decode := fun _ => .ok [9]
  imageOpen := fun _ => .ok rgbImg
  convertRGB := id
  modelLoaded := true
  transform := fun i => .ok i
  encodeWebp := fun _ => .ok [7]
  b64encode := fun _ => ['X']
  refundRead := .resp 200 true
  refundWrite := .resp 204 true

/-- The healthy environment with the transform-engine handle absent
(`bg_remover is None`); refund round trips still succeed. -/
def noModelEnv : Env :=
  { okEnv with modelLoaded := false }

/-- An environment whose JWT decoder behaves like PyJWT: the empty token
does not parse and raises `InvalidTokenError`. -/
def pyjwtEnv : Env :=
  { okEnv with jwtDecode := fun t => if t = [] then .invalidToken else .ok ⟨some ['u']⟩ }

/-- A well-formed authorization header. -/
def goodAuth : PyStr := "Bearer tok".toList

/-- The header consisting of exactly `"Bearer "`: the token segment
after the marker is empty. -/
def bearerOnly : PyStr := "Bearer ".toList

/-- A comma-free body standing for a bare base64 payload. -/
def bareBody : PyStr := "QUJD".toList

/-- The comma-free part of a data-URL marker, as sent by browsers. -/
def dataPrefix : PyStr := "data:image/webp;base64".toList

/-- Splitting a separator-free list yields the accumulated single field. -/
theorem pySplitAux_no_sep (sep : Char) (p : List Char) (h : sep ∉ p) :
    ∀ acc, pySplitAux sep p acc = [acc.reverse ++ p] := by
  induction p with
  | nil => intro acc; simp [pySplitAux]
  | cons c rest ih =>
    intro acc
    have hc : ¬ c = sep := fun hcs => h (hcs ▸ List.mem_cons_self c rest)
    have hrest : sep ∉ rest := fun hm => h (List.mem_cons_of_mem _ hm)
    simp [pySplitAux, hc, ih hrest]

/-- Splitting around the first separator isolates the separator-free
part before it. -/
theorem pySplitAux_first_sep (sep : Char) (pfx : List Char) (h : sep ∉ pfx) :
    ∀ p acc, pySplitAux sep (pfx ++ sep :: p) acc =
      (acc.reverse ++ pfx) :: pySplit sep p := by
  induction pfx with
  | nil => intro p acc; simp [pySplitAux, pySplit]
  | cons c rest ih =>
    intro p acc
    have hc : ¬ c = sep := fun hcs => h (hcs ▸ List.mem_cons_self c rest)
    have hrest : sep ∉ rest := fun hm => h (List.mem_cons_of_mem _ hm)
    simp [pySplitAux, hc, ih hrest]

/-- A comma-free body is passed to the base64 decoder unchanged. -/
theorem extractPayload_bare (p : PyStr) (h : ',' ∉ p) : extractPayload p = p := by
  simp [extractPayload, h]

/-- A data-URL body is reduced to the segment after the first comma. -/
theorem extractPayload_dataUrl (pfx p : PyStr) (h1 : ',' ∉ pfx) (h2 : ',' ∉ p) :
    extractPayload (pfx ++ ',' :: p) = p := by
  have hm : ',' ∈ pfx ++ ',' :: p := by simp
  simp [extractPayload, hm, pySplit, pySplitAux_first_sep ',' pfx h1 p [],
    pySplitAux_no_sep ',' p h2]

/-- `auth_stage` either yields an email (after one `jwt.decode` call) or
raises one of the five status-100 authentication errors. -/
theorem auth_cases (env : Env) (a : Option PyStr) :
    (∃ em, auth_stage env a = (.ok em, 1)) ∨
    (∃ e j, auth_stage env a = (.error e, j) ∧ e.status_code = 100 ∧
      e.detail ∈ authDetails) := by
  unfold auth_stage
  rcases a with _ | s
  · exact .inr ⟨_, 0, rfl, rfl, by simp [authDetails]⟩
  · dsimp only
    by_cases h0 : s = [] <;> simp only [h0, if_true, if_false]
    · exact .inr ⟨_, 0, rfl, rfl, by simp [authDetails]⟩
    · by_cases h1 : bearerMarker.isPrefixOf s <;> simp only [h1, if_true, if_false]
      · cases env.jwtDecode ((pySplit ' ' s).getD 1 []) with
        | expiredSignature => exact .inr ⟨_, 1, rfl, rfl, by simp [authDetails]⟩
        | invalidToken => exact .inr ⟨_, 1, rfl, rfl, by simp [authDetails]⟩
        | ok payload =>
          rcases payload with ⟨_ | em⟩
          · exact .inr ⟨_, 1, rfl, rfl, by simp [authDetails]⟩
          · dsimp only
            by_cases h2 : em = [] <;> simp only [h2, if_true, if_false]
            · exact .inr ⟨_, 1, rfl, rfl, by simp [authDetails]⟩
            · exact .inl ⟨em, rfl⟩
      · exact .inr ⟨_, 0, rfl, rfl, by simp [authDetails]⟩

/-- `deduct_credit` either charges (write issued, result the new
balance), or raises a generic exception, or raises a status-300 ledger
error or the status-400 insufficient-credit error. -/
theorem deduct_cases (rb : ReadBehavior) (wb : WriteBehavior) (l : Int) :
    (∃ n l2, deduct_credit rb wb l = (.ok n, l2, true)) ∨
    (∃ m l2 w, deduct_credit rb wb l = (.error (.exc m), l2, w)) ∨
    (∃ e l2 w, deduct_credit rb wb l = (.error (.http e), l2, w) ∧
      ((e.status_code = 300 ∧ e.detail ∈ ledgerDetails) ∨
       (e.status_code = 400 ∧ e.detail = "No credits remaining"))) := by
  rcases rb with ⟨st, fd⟩ | _
  · by_cases hst : st = 200
    · subst hst
      cases fd with
      | false =>
        simp only [deduct_credit, get_user_credits, ne_eq, not_true_eq_false,
          if_false, Bool.false_eq_true, ite_false]
        exact .inr (.inr ⟨_, _, _, rfl, .inl ⟨rfl, by simp [ledgerDetails]⟩⟩)
      | true =>
        by_cases hl : l ≤ 0
        · simp only [deduct_credit, get_user_credits, ne_eq, not_true_eq_false,
            if_false, ite_true, hl]
          exact .inr (.inr ⟨_, _, _, rfl, .inr ⟨rfl, rfl⟩⟩)
        · rcases wb with ⟨ws, ap⟩ | _
          · by_cases hws : ws ≠ 200 ∧ ws ≠ 204
            · simp only [deduct_credit, get_user_credits, ne_eq, not_true_eq_false,
                if_false, ite_true, hl, hws, and_self]
              exact .inr (.inr ⟨_, _, _, rfl, .inl ⟨rfl, by simp [ledgerDetails]⟩⟩)
            · simp only [deduct_credit, get_user_credits, ne_eq, not_true_eq_false,
                if_false, ite_true, hl, hws]
              exact .inl ⟨_, _, rfl⟩
          · simp only [deduct_credit, get_user_credits, ne_eq, not_true_eq_false,
              if_false, ite_true, hl]
            exact .inr (.inl ⟨_, _, _, rfl⟩)
    · simp only [deduct_credit, get_user_credits, ne_eq, hst, not_false_eq_true,
        ite_true]
      exact .inr (.inr ⟨_, _, _, rfl, .inl ⟨rfl, by simp [ledgerDetails]⟩⟩)
  · simp only [deduct_credit, get_user_credits]
    exact .inr (.inl ⟨_, _, _, rfl⟩)

/-- The processing stage either succeeds with the charged remaining
balance and no refunds, or fails with status 500 "Processing failed"
after at least one refund attempt. -/
theorem process_cases (env : Env) (i : PILImage) (rem l : Int) :
    (∃ s, process_stage env i rem l = (.ok s rem, l, 0, 0)) ∨
    (∃ l2 rc rw, process_stage env i rem l = (.err ⟨500, "Processing failed"⟩, l2, rc, rw) ∧
      1 ≤ rc) := by
  cases hm : env.modelLoaded with
  | false =>
    simp only [process_stage, hm, Bool.false_eq_true, ite_false]
    exact .inr ⟨_, _, _, rfl, by norm_num⟩
  | true =>
    cases ht : env.transform i with
    | error e =>
      simp only [process_stage, hm, ite_true, ht]
      exact .inr ⟨_, _, _, rfl, le_refl 1⟩
    | ok o =>
      cases he : env.encodeWebp o with
      | error e2 =>
        simp only [process_stage, hm, ite_true, ht, he]
        exact .inr ⟨_, _, _, rfl, le_refl 1⟩
      | ok wbs =>
        simp only [process_stage, hm, ite_true, ht, he]
        exact .inl ⟨_, rfl⟩

/-- Claim C5: when the stored balance is at most zero, the charge fails
with the status-400 insufficient-credit error, the ledger is unchanged,
no balance write is issued, and the outcome does not depend on the write
behaviour at all. -/
theorem claim_C5_insufficient_no_mutation (wb wb2 : WriteBehavior) (b : Int)
    (h : b ≤ 0) :
    deduct_credit (.resp 200 true) wb b =
      (.error (.http ⟨400, "No credits remaining"⟩), b, false) ∧
    deduct_credit (.resp 200 true) wb b = deduct_credit (.resp 200 true) wb2 b := by
  have key : ∀ w : WriteBehavior, deduct_credit (.resp 200 true) w b =
      (.error (.http ⟨400, "No credits remaining"⟩), b, false) := by
    intro w
    simp [deduct_credit, get_user_credits, h]
  exact ⟨key wb, (key wb).trans (key wb2).symm⟩

/-- Witness for C5 at balance 0 with two different write behaviours. -/
theorem claim_C5_insufficient_witness :
    (0 : Int) ≤ 0 ∧
    (deduct_credit (.resp 200 true) .exc 0 =
       (.error (.http ⟨400, "No credits remaining"⟩), 0, false) ∧
     deduct_credit (.resp 200 true) .exc 0 =
       deduct_credit (.resp 200 true) (.resp 500 false) 0) :=
  ⟨by decide, claim_C5_insufficient_no_mutation .exc (.resp 500 false) 0 (by decide)⟩

/-- Claim C9: when the refund's balance read succeeds, the refund PATCH's
response status is never inspected — any status is logged as a
successful refund and the whole outcome is identical across statuses —
and only a transport-level exception is logged as a refund failure. -/
theorem claim_C9_refund_write_status_ignored (l : Int) (s1 s2 : Nat) (a : Bool) :
    (refund_credit (.resp 200 true) (.resp s1 a) l).1 = .logRefunded ∧
    refund_credit (.resp 200 true) (.resp s1 a) l =
      refund_credit (.resp 200 true) (.resp s2 a) l ∧
    (refund_credit (.resp 200 true) WriteBehavior.exc l).1 = .logFailed := by
  refine ⟨?_, ?_, ?_⟩ <;>
    simp [refund_credit, refund_credit_attempt, get_user_credits]

/-- Claim C1 (failing input): balance 5, valid auth, successful charge,
transform engine unavailable, all refund round trips succeeding — the
request ends with the ledger at 6, not at the pre-request value 5,
because the handler refunds twice. -/
theorem claim_C1_engine_unavailable_breaks_netting :
    (remove_background noModelEnv (some goodAuth) bareBody 5).ledger = 6 ∧
    (remove_background noModelEnv (some goodAuth) bareBody 5).result =
      .err ⟨500, "Processing failed"⟩ ∧
    (6 : Int) ≠ 5 := by decide

/-- Claim C2 (failing input): on the engine-unavailable path the handler
performs one charge write but two refund attempts and two refund
writes. -/
theorem claim_C2_engine_unavailable_double_refund :
    (remove_background noModelEnv (some goodAuth) bareBody 5).refundCalls = 2 ∧
    (remove_background noModelEnv (some goodAuth) bareBody 5).refundWrites = 2 ∧
    (remove_background noModelEnv (some goodAuth) bareBody 5).chargeWrites = 1 := by
  decide

/-- Counterexample to claim C6: with a PyJWT-like decoder, the header
consisting of exactly `"Bearer "` passes the format check, the empty
token is handed to `jwt.decode` (one decoder call), and the request
fails with detail "Invalid token" — not with the malformed-authorization
detail the claim requires. -/
theorem claim_C6_empty_token_reaches_decoder :
    (remove_background pyjwtEnv (some bearerOnly) bareBody 5).result =
      .err ⟨100, "Invalid token"⟩ ∧
    (remove_background pyjwtEnv (some bearerOnly) bareBody 5).jwtCalls = 1 ∧
    ("Invalid token" : String) ≠ "Invalid authorization format" := by decide

/-- Claim C6 as amended: a missing or empty header and a header without
the `"Bearer "` marker fail with the missing/malformed errors before any
decoder call, while the header `"Bearer "` with its empty token segment
proceeds to the JWT decoder and is rejected by it (status 100, detail
"Invalid token"). -/
theorem claim_C6_amended_auth_rejection (env : Env) (a d : PyStr) (l : Int) :
    ((remove_background env none d l).result =
       .err ⟨100, "Missing authorization"⟩) ∧
    ((remove_background env (some []) d l).result =
       .err ⟨100, "Missing authorization"⟩) ∧
    (a ≠ [] → ¬ bearerMarker.isPrefixOf a →
      (remove_background env (some a) d l).result =
        .err ⟨100, "Invalid authorization format"⟩) ∧
    (env.jwtDecode [] = .invalidToken →
      (remove_background env (some bearerOnly) d l).result =
        .err ⟨100, "Invalid token"⟩ ∧
      (remove_background env (some bearerOnly) d l).jwtCalls = 1) := by
  refine ⟨?_, ?_, ?_, ?_⟩
  · simp [remove_background, auth_stage]
  · simp [remove_background, auth_stage]
  · intro h1 h2
    simp [remove_background, auth_stage, h1, h2]
  · intro hj
    have hne : bearerOnly ≠ [] := by decide
    have hpf : bearerMarker.isPrefixOf bearerOnly = true := by decide
    have hsp : pySplit ' ' bearerOnly = [['B', 'e', 'a', 'r', 'e', 'r'], []] := by
      decide
    have hA : auth_stage env (some bearerOnly) =
        (.error ⟨100, "Invalid token"⟩, 1) := by
      simp [auth_stage, hne, hpf, hsp, hj]
    constructor <;> simp [remove_background, hA]

/-- Witness for the amended C6 at concrete inputs. -/
theorem claim_C6_amended_witness :
    ((['x'] : PyStr) ≠ [] ∧ ¬ bearerMarker.isPrefixOf ['x'] ∧
      (remove_background pyjwtEnv (some ['x']) [] 0).result =
        .err ⟨100, "Invalid authorization format"⟩) ∧
    (pyjwtEnv.jwtDecode [] = .invalidToken ∧
      (remove_background pyjwtEnv (some bearerOnly) [] 0).result =
        .err ⟨100, "Invalid token"⟩) :=
  ⟨⟨by decide, by decide,
    (claim_C6_amended_auth_rejection pyjwtEnv ['x'] [] 0).2.2.1 (by decide) (by decide)⟩,
   ⟨by decide,
    ((claim_C6_amended_auth_rejection pyjwtEnv ['x'] [] 0).2.2.2 (by decide)).1⟩⟩

/-- Claim C8: a data-URL-prefixed payload and its bare-base64 equivalent
produce identical decode-step outcomes — the same decoded bytes and the
same post-normalization image. -/
theorem claim_C8_data_url_equals_bare (env : Env) (pfx p : PyStr)
    (h1 : ',' ∉ pfx) (h2 : ',' ∉ p) :
    decode_image_step env (pfx ++ ',' :: p) = decode_image_step env p := by
  unfold decode_image_step
  rw [extractPayload_dataUrl pfx p h1 h2, extractPayload_bare p h2]

/-- Witness for C8 on a concrete data-URL marker and payload. -/
theorem claim_C8_data_url_witness :
    (',' ∉ dataPrefix) ∧ (',' ∉ bareBody) ∧
    decode_image_step okEnv (dataPrefix ++ ',' :: bareBody) =
      decode_image_step okEnv bareBody :=
  ⟨by decide, by decide,
   claim_C8_data_url_equals_bare okEnv dataPrefix bareBody (by decide) (by decide)⟩

/-- Claim C4: from a balance `b > 0`, a fully successful request (auth
ok, charge read and write succeed with 200/204, decode, transform and
encode succeed) leaves the ledger at `b - 1` and returns
`remaining_credits = b - 1`. -/
theorem claim_C4_success_decrements_and_reports (env : Env) (a : Option PyStr)
    (d : PyStr) (b : Int) (em : PyStr) (bts : ImgBytes) (img out : PILImage)
    (wbs : ImgBytes) (ws : Nat)
    (hauth : auth_stage env a = (.ok em, 1))
    (hb : 0 < b)
    (hcr : env.chargeRead = .resp 200 true)
    (hcw : env.chargeWrite = .resp ws true)
    (hws : ws = 200 ∨ ws = 204)
    (hdec : decode_image_step env d = .ok (bts, img))
    (hm : env.modelLoaded = true)
    (ht : env.transform img = .ok out)
    (he : env.encodeWebp out = .ok wbs) :
    (remove_background env a d b).result =
      .ok (dataUrlHeader ++ env.b64encode wbs) (b - 1) ∧
    (remove_background env a d b).ledger = b - 1 := by
  have hnb : ¬ b ≤ 0 := not_le.mpr hb
  have hded : deduct_credit env.chargeRead env.chargeWrite b =
      (.ok (b - 1), b - 1, true) := by
    rcases hws with rfl | rfl <;>
      simp [deduct_credit, get_user_credits, hcr, hcw, hnb]
  constructor <;>
    simp [remove_background, hauth, hded, hdec, process_stage, hm, ht, he]

/-- Witness for C4: balance 3 under the healthy environment yields
remaining credits 2 and final ledger 2. -/
theorem claim_C4_success_witness :
    (0 : Int) < 3 ∧
    (remove_background okEnv (some goodAuth) bareBody 3).result =
      .ok (dataUrlHeader ++ okEnv.b64encode [7]) 2 ∧
    (remove_background okEnv (some goodAuth) bareBody 3).ledger = 2 :=
  ⟨by decide,
   claim_C4_success_decrements_and_reports okEnv (some goodAuth) bareBody 3
     ['u'] [9] rgbImg rgbImg [7] 204 (by rfl) (by decide) rfl rfl (.inr rfl)
     (by rfl) rfl rfl rfl⟩

/-- Claim C3: in every request, a refund is attempted if and only if the
charge succeeded and the request nevertheless ended in an error — never
on auth failure, charge failure, or full success; always when a
post-charge step fails. -/
theorem claim_C3_refund_iff_charged_then_failed (env : Env) (a : Option PyStr)
    (d : PyStr) (l : Int) :
    1 ≤ (remove_background env a d l).refundCalls ↔
      ((remove_background env a d l).chargeOk = true ∧
       ∃ e, (remove_background env a d l).result = .err e) := by
  rcases auth_cases env a with ⟨em, hA⟩ | ⟨e, j, hA, _, _⟩
  · rcases deduct_cases env.chargeRead env.chargeWrite l with
      ⟨n, l2, hD⟩ | ⟨m, l2, w, hD⟩ | ⟨e2, l2, w, hD, _⟩
    · cases hdec : decode_image_step env d with
      | error e3 => simp [remove_background, hA, hD, hdec]
      | ok di =>
        rcases process_cases env di.2 n l2 with ⟨s, hP⟩ | ⟨l3, rc, rw, hP, hrc⟩
        · simp [remove_background, hA, hD, hdec, hP]
        · simp [remove_background, hA, hD, hdec, hP, hrc]
    · simp [remove_background, hA, hD]
    · simp [remove_background, hA, hD]
  · simp [remove_background, hA]

/-- The processing stage's caller-visible result does not depend on the
refund behaviours. -/
theorem process_stage_result_indep (env : Env) (rb : ReadBehavior)
    (wb : WriteBehavior) (i : PILImage) (rem l : Int) :
    (process_stage (setRefund env rb wb) i rem l).1 =
      (process_stage env i rem l).1 := by
  cases hm : env.modelLoaded with
  | false => simp [process_stage, setRefund, hm]
  | true =>
    cases ht : env.transform i with
    | error e => simp [process_stage, setRefund, hm, ht]
    | ok o =>
      cases he : env.encodeWebp o with
      | error e2 => simp [process_stage, setRefund, hm, ht, he]
      | ok wbs => simp [process_stage, setRefund, hm, ht, he]

/-- Claim C7: failures inside `refund_credit` are swallowed and never
reach the caller — the response (success body or surfaced error) is
identical under any two refund behaviours, so the original error that
triggered the refund is always the one surfaced. -/
theorem claim_C7_refund_never_masks_error (env : Env) (r1 r2 : ReadBehavior)
    (w1 w2 : WriteBehavior) (a : Option PyStr) (d : PyStr) (l : Int) :
    (remove_background (setRefund env r1 w1) a d l).result =
      (remove_background (setRefund env r2 w2) a d l).result := by
  have hA1 : auth_stage (setRefund env r1 w1) a = auth_stage env a := rfl
  have hA2 : auth_stage (setRefund env r2 w2) a = auth_stage env a := rfl
  have hc1 : (setRefund env r1 w1).chargeRead = env.chargeRead := rfl
  have hc2 : (setRefund env r2 w2).chargeRead = env.chargeRead := rfl
  have hw1 : (setRefund env r1 w1).chargeWrite = env.chargeWrite := rfl
  have hw2 : (setRefund env r2 w2).chargeWrite = env.chargeWrite := rfl
  have hd1 : decode_image_step (setRefund env r1 w1) d = decode_image_step env d := rfl
  have hd2 : decode_image_step (setRefund env r2 w2) d = decode_image_step env d := rfl
  rcases auth_cases env a with ⟨em, hA⟩ | ⟨e, j, hA, _, _⟩
  · rcases deduct_cases env.chargeRead env.chargeWrite l with
      ⟨n, l2, hD⟩ | ⟨m, l2, w, hD⟩ | ⟨e2, l2, w, hD, _⟩
    · cases hdec : decode_image_step env d with
      | error e3 =>
        simp [remove_background, hA1, hA2, hA, hc1, hc2, hw1, hw2, hD,
          hd1, hd2, hdec]
      | ok di =>
        simp [remove_background, hA1, hA2, hA, hc1, hc2, hw1, hw2, hD,
          hd1, hd2, hdec, process_stage_result_indep]
    · simp [remove_background, hA1, hA2, hA, hc1, hc2, hw1, hw2, hD]
    · simp [remove_background, hA1, hA2, hA, hc1, hc2, hw1, hw2, hD]
  · simp [remove_background, hA1, hA2, hA]

/-- Claim C10: every request either succeeds or fails with one of the
fixed class-to-code mappings — authentication errors carry status 100,
ledger errors 300, insufficient credit 400, and processing errors 500;
the four codes are pairwise distinct and 100 and 300 are not standard
HTTP error codes. -/
theorem claim_C10_error_code_mapping :
    (∀ (env : Env) (a : Option PyStr) (d : PyStr) (l : Int),
      (∃ s rem, (remove_background env a d l).result = .ok s rem) ∨
      (∃ e, (remove_background env a d l).result = .err e ∧
        ((e.status_code = 100 ∧ e.detail ∈ authDetails) ∨
         (e.status_code = 300 ∧ e.detail ∈ ledgerDetails) ∨
         (e.status_code = 400 ∧ e.detail = "No credits remaining") ∨
         (e.status_code = 500 ∧ e.detail ∈ processingDetails)))) ∧
    ((100 : Nat) ≠ 300 ∧ (100 : Nat) ≠ 400 ∧ (100 : Nat) ≠ 500 ∧
     (300 : Nat) ≠ 400 ∧ (300 : Nat) ≠ 500 ∧ (400 : Nat) ≠ 500) ∧
    ¬ isStandardHttpError 100 ∧ ¬ isStandardHttpError 300 := by
  refine ⟨?_, by decide, fun h => absurd h.1 (by decide),
    fun h => absurd h.1 (by decide)⟩
  intro env a d l
  rcases auth_cases env a with ⟨em, hA⟩ | ⟨e, j, hA, h1, h2⟩
  · rcases deduct_cases env.chargeRead env.chargeWrite l with
      ⟨n, l2, hD⟩ | ⟨m, l2, w, hD⟩ | ⟨e2, l2, w, hD, hcls⟩
    · cases hdec : decode_image_step env d with
      | error e3 =>
        refine .inr ⟨⟨500, "Invalid image data"⟩, ?_, ?_⟩
        · simp [remove_background, hA, hD, hdec]
        · exact .inr (.inr (.inr ⟨rfl, by simp [processingDetails]⟩))
      | ok di =>
        rcases process_cases env di.2 n l2 with ⟨s, hP⟩ | ⟨l3, rc, rw, hP, _⟩
        · exact .inl ⟨s, n, by simp [remove_background, hA, hD, hdec, hP]⟩
        · refine .inr ⟨⟨500, "Processing failed"⟩,
            by simp [remove_background, hA, hD, hdec, hP], ?_⟩
          exact .inr (.inr (.inr ⟨rfl, by simp [processingDetails]⟩))
    · refine .inr ⟨⟨300, "Credit system error"⟩,
        by simp [remove_background, hA, hD], ?_⟩
      exact .inr (.inl ⟨rfl, by simp [ledgerDetails]⟩)
    · refine .inr ⟨e2, by simp [remove_background, hA, hD], ?_⟩
      rcases hcls with ⟨h3, h4⟩ | ⟨h3, h4⟩
      · exact .inr (.inl ⟨h3, h4⟩)
      · exact .inr (.inr (.inl ⟨h3, h4⟩))
  · exact .inr ⟨e, by simp [remove_background, hA], .inl ⟨h1, h2⟩⟩
